import Mathlib

/-!
Shallow embedding of the slicknode CLI's environment-resolution and
deployment workflow: the cluster resolvers of `InitCommand.getCluster`
(src/commands/init.ts) and `DeployCommand.getCluster`, the environment
resolver `DeployCommand.getOrCreateEnvironment`, and the migration tail of
`DeployCommand.run` (deploy command source file).

Network effects are modelled as explicit oracles: a probe function
mapping a ping URL to the measured latency (`none` = the fetch threw,
i.e. the candidate is unreachable), the backend responses as plain data,
and the environment store as a lookup function.  JavaScript-specific
behaviour that the source relies on (falsiness of `""`/`null`/`0`,
`null` coercion in `<`, `Infinity`/`NaN` arithmetic in comparators, and
the stability contract of `Array.prototype.sort`) is embedded explicitly.
-/

namespace Slicknode

/-- The subset of JavaScript number values produced by the two latency
comparators: integers, the infinities (from `latency || Infinity`), and
`NaN` (from `Infinity - Infinity`). -/
inductive JsNum where
  | num (v : Int)
  | posInf
  | negInf
  | nan
deriving Repr, DecidableEq

/-- IEEE-style subtraction on `JsNum`, as JavaScript `-` behaves on these
values. -/
def JsNum.sub : JsNum → JsNum → JsNum
  | .num a, .num b => .num (a - b)
  | .num _, .posInf => .negInf
  | .num _, .negInf => .posInf
  | .posInf, .num _ => .posInf
  | .posInf, .posInf => .nan
  | .posInf, .negInf => .posInf
  | .negInf, .num _ => .negInf
  | .negInf, .posInf => .negInf
  | .negInf, .negInf => .nan
  | .nan, _ => .nan
  | _, .nan => .nan

/-- Whether a comparator result is negative.  `NaN < 0` is false in
JavaScript, so a `NaN` comparator value never counts as negative. -/
def JsNum.isNeg : JsNum → Bool
  | .num v => v < 0
  | .posInf => false
  | .negInf => true
  | .nan => false

/-- One insertion step of a stable comparator sort: the newly arriving
element `x` is placed immediately before the first already-placed element
`y` with `cmp x y < 0`, and after all others.  This realises the
ECMAScript stability contract of `Array.prototype.sort`: an element moves
before an earlier one only when the comparator orders it strictly
first. -/
def jsInsert (cmp : α → α → JsNum) (x : α) : List α → List α
  | [] => [x]
  | y :: ys => if (cmp x y).isNeg then x :: y :: ys else y :: jsInsert cmp x ys

/-- Stable sort with a JavaScript comparator (model of
`Array.prototype.sort(cmp)`). -/
def jsSort (cmp : α → α → JsNum) (l : List α) : List α :=
  l.foldl (fun acc x => jsInsert cmp x acc) []

/-- Cluster node returned by the `listCluster` query
(`{id, alias, name, pingUrl}`). -/
structure ICluster where
  id : String
  «alias» : String
  name : String
  pingUrl : String
deriving Repr, DecidableEq

/-- One edge of the `listCluster` connection (`{node: ICluster}`). -/
structure ClusterEdge where
  node : ICluster
deriving Repr, DecidableEq

/-- A probed cluster: `{latency, cluster}` where `latency` is `null` when
the ping fetch threw. -/
structure Timing where
  latency : Option Nat
  cluster : ICluster
deriving Repr, DecidableEq

/-- The `listCluster` response: the edge list
(`data.listCluster.edges`, defaulted to `[]`) and the messages of the
top-level `errors` array. -/
structure ListClusterResult where
  edges : List ClusterEdge
  errors : List String
deriving Repr, DecidableEq

/-- `edges.map(({node}) => ({latency: <timed fetch of node.pingUrl>, cluster: node}))`:
the Latency Prober, with the network modelled by the `probe` oracle. -/
def dcTimers (probe : String → Option Nat) (edges : List ClusterEdge) : List Timing :=
  edges.map fun e => ⟨probe e.node.pingUrl, e.node⟩

/-- JavaScript `a < b` on the latency values compared inside
`DeployCommand.getCluster` (`null` coerces to `0` in a relational
comparison; after the `!== null` filter both sides are numbers). -/
def jsLtLatency (a b : Option Nat) : Bool :=
  a.getD 0 < b.getD 0

/-- The comparator of `DeployCommand.getCluster`:
`(a, b) => a.latency < b.latency ? 1 : 0`. -/
def deployCompareLatency (a b : Timing) : JsNum :=
  if jsLtLatency a.latency b.latency then .num 1 else .num 0

/-- `latency || Infinity` as used by the `InitCommand.getCluster`
comparator: `null` is falsy, and so is a latency of `0`. -/
def jsOrInfinity : Option Nat → JsNum
  | none => .posInf
  | some 0 => .posInf
  | some n => .num n

/-- The comparator of `InitCommand.getCluster`:
`(a, b) => (a.latency || Infinity) - (b.latency || Infinity)`. -/
def initCompareLatency (a b : Timing) : JsNum :=
  (jsOrInfinity a.latency).sub (jsOrInfinity b.latency)

/-- The ranked list built by `DeployCommand.getCluster`:
`timedDcs.filter((d) => d.latency !== null).sort((a, b) => a.latency < b.latency ? 1 : 0)`. -/
def DeployCommand.ranking (lc : ListClusterResult) (probe : String → Option Nat) :
    List Timing :=
  jsSort deployCompareLatency ((dcTimers probe lc.edges).filter fun d => d.latency.isSome)

/-- `DeployCommand.getCluster`: abort on a top-level error
(`_.get(result, 'errors[0]')` truthy), otherwise probe every edge and
return the head of the ranked available list, or `null` when it is
empty. -/
def DeployCommand.getCluster (lc : ListClusterResult) (probe : String → Option Nat) :
    Option ICluster :=
  if lc.errors.isEmpty then (DeployCommand.ranking lc probe).head?.map (·.cluster)
  else none

/-- Number of ping fetches `DeployCommand.getCluster` issues: zero when
the cluster list came back with an error (early return), otherwise one
per edge — there is no size-one shortcut in this variant. -/
def DeployCommand.pingCount (lc : ListClusterResult) : Nat :=
  if lc.errors.isEmpty then lc.edges.length else 0

/-- The ranked choice list `InitCommand.getCluster` presents:
`dcTimers.sort((a, b) => (a.latency || Infinity) - (b.latency || Infinity))`. -/
def InitCommand.ranking (edges : List ClusterEdge) (probe : String → Option Nat) :
    List Timing :=
  jsSort initCompareLatency (dcTimers probe edges)

/-- `InitCommand.getCluster`: a single edge is returned immediately, an
empty list yields `null`, otherwise every edge is probed and the ranked
list is offered for interactive selection (the user's pick is the
`choose` oracle applied to the ranked list). -/
def InitCommand.getCluster (edges : List ClusterEdge) (probe : String → Option Nat)
    (choose : List Timing → Option ICluster) : Option ICluster :=
  if edges.length = 1 then edges.head?.map (·.node)
  else if edges.length = 0 then none
  else choose (InitCommand.ranking edges probe)

/-- Number of ping fetches `InitCommand.getCluster` issues: none on the
size-one and size-zero early returns, one per edge otherwise. -/
def InitCommand.pingCount (edges : List ClusterEdge) : Nat :=
  if edges.length = 1 then 0
  else if edges.length = 0 then 0
  else edges.length

/-- JavaScript truthiness of an optional string option value: `undefined`
and `""` are falsy, any other string is truthy. -/
def jsTruthy (a : Option String) : Bool :=
  match a with
  | some s => decide (s ≠ "")
  | none => false

/-- JavaScript `a || b` for an optional string `a` and a string default
`b`. -/
def jsOrStr (a : Option String) (b : String) : String :=
  match a with
  | some s => if s = "" then b else s
  | none => b

/-- A persisted environment record (`IEnvironmentConfig`): the fields the
deploy command writes to the `.slicknoderc` store. -/
structure IEnvironmentConfig where
  endpoint : String
  version : String
  «alias» : String
  consoleUrl : String
  playgroundUrl : String
  name : String
  id : String
deriving Repr, DecidableEq

/-- The `version {bundle, id}` node of a created or migrated project;
`bundle` is `none` when the field is `null`/absent. -/
structure VersionNode where
  bundle : Option String
  id : String
deriving Repr, DecidableEq

/-- The `createProject` node
(`{id, alias, name, endpoint, consoleUrl, playgroundUrl, version}`). -/
structure ProjectNode where
  id : String
  «alias» : String
  name : String
  endpoint : String
  consoleUrl : String
  playgroundUrl : String
  version : VersionNode
deriving Repr, DecidableEq

/-- The `createProject` mutation response: `data.createProject.node`
(absent on failure) and the top-level `errors` messages. -/
structure CreateProjectResult where
  node : Option ProjectNode
  errors : List String
deriving Repr, DecidableEq

/-- The options of the deploy command that `getOrCreateEnvironment`
consults (`{force, env, name, alias, account}`); a missing option is
`none`. -/
structure DeployOptions where
  force : Bool
  env : Option String
  name : Option String
  «alias» : Option String
  account : Option String
deriving Repr, DecidableEq

/-- `suggestedName`: assigned only inside `if (defaultEnv)`, where it is
`this.options.name || "<defaultEnv.name> (<name>)"`; it stays `undefined`
when no `default` environment record exists. -/
def suggestedProjectName (opts : DeployOptions) (defaultEnv : Option IEnvironmentConfig)
    (name : String) : Option String :=
  match defaultEnv with
  | some d => some (jsOrStr opts.name (d.name ++ " (" ++ name ++ ")"))
  | none => none

/-- `suggestedAlias`: assigned only inside `if (defaultEnv)`, where it is
`this.options.alias || "<defaultEnv.alias>-<name>"`; it stays `undefined`
when no `default` environment record exists. -/
def suggestedProjectAlias (opts : DeployOptions) (defaultEnv : Option IEnvironmentConfig)
    (name : String) : Option String :=
  match defaultEnv with
  | some d => some (jsOrStr opts.«alias» (d.«alias» ++ "-" ++ name))
  | none => none

/-- `newName` as computed by `getOrCreateEnvironment`: in forced mode the
suggestion verbatim; interactively, the prompt answer when a name prompt
was shown (`!this.options.name`), the suggestion otherwise
(`{name: suggestedName, ...answers}`). -/
def newProjectName (opts : DeployOptions) (defaultEnv : Option IEnvironmentConfig)
    (name : String) (answerName : String) : Option String :=
  if opts.force then suggestedProjectName opts defaultEnv name
  else if jsTruthy opts.name then suggestedProjectName opts defaultEnv name
  else some answerName

/-- `newAlias`, symmetric to `newProjectName`. -/
def newProjectAlias (opts : DeployOptions) (defaultEnv : Option IEnvironmentConfig)
    (name : String) (answerAlias : String) : Option String :=
  if opts.force then suggestedProjectAlias opts defaultEnv name
  else if jsTruthy opts.«alias» then suggestedProjectAlias opts defaultEnv name
  else some answerAlias

/-- Number of interactive prompts `getOrCreateEnvironment` issues while
determining name and alias: none in forced mode, otherwise one per value
not already supplied (truthy) in the options. -/
def promptCount (opts : DeployOptions) : Nat :=
  if opts.force then 0
  else (if jsTruthy opts.name then 0 else 1) + (if jsTruthy opts.«alias» then 0 else 1)

/-- The environment record assembled from a `createProject` node before
it is written to the store (`version` is `project.version.id`). -/
def envConfigOfProject (p : ProjectNode) : IEnvironmentConfig :=
  { endpoint := p.endpoint
    version := p.version.id
    «alias» := p.«alias»
    consoleUrl := p.consoleUrl
    playgroundUrl := p.playgroundUrl
    name := p.name
    id := p.id }

/-- Observable outcome of one `getOrCreateEnvironment` call: the returned
record or the thrown error message, every store write it performed, and
the number of network calls it issued. -/
structure EnvResolveOutcome where
  result : Except String IEnvironmentConfig
  writes : List (String × IEnvironmentConfig)
  networkCalls : Nat

/-- `DeployCommand.getOrCreateEnvironment`.  The store is the lookup
oracle for persisted environment records; `lc`, `probe` and
`createResult` stand for the backend.  A hit in the store returns the
record unchanged without touching the network.  On a miss, the cluster is
resolved (one `listCluster` fetch plus the pings); a `null` cluster or a
response without a `createProject` node throws `Error creating project`
before any store write; only a fully accepted response is written, keyed
by the environment name. -/
def DeployCommand.getOrCreateEnvironment (opts : DeployOptions)
    (store : String → Option IEnvironmentConfig)
    (lc : ListClusterResult) (probe : String → Option Nat)
    (createResult : CreateProjectResult) : EnvResolveOutcome :=
  let name := jsOrStr opts.env "default"
  match store name with
  | some env => ⟨.ok env, [], 0⟩
  | none =>
    let clusterCalls := 1 + DeployCommand.pingCount lc
    match DeployCommand.getCluster lc probe with
    | none => ⟨.error "Error creating project", [], clusterCalls⟩
    | some _ =>
      match createResult.node with
      | none => ⟨.error "Error creating project", [], clusterCalls + 1⟩
      | some project =>
        let envConfig := envConfigOfProject project
        ⟨.ok envConfig, [(name, envConfig)], clusterCalls + 1⟩

/-- A `migrateProject` change error (`IProjectChangeError`); only its
message is observable here. -/
structure IProjectChangeError where
  message : String
deriving Repr, DecidableEq

/-- One pending change reported by the status/diff call:
`{type, description}`. -/
structure ChangeRecord where
  type : String
  description : String
deriving Repr, DecidableEq

/-- The change counters accumulated by `DeployCommand.run`
(`IChangeCounts`), in the source's field order. -/
structure IChangeCounts where
  update : Nat
  add : Nat
  remove : Nat
deriving Repr, DecidableEq

/-- The `migrateProject` node as inspected by `DeployCommand.run`; only
`version` matters for the control flow (`node` itself may be absent). -/
structure MigrateProjectNode where
  version : Option VersionNode
deriving Repr, DecidableEq

/-- The `migrateProject` mutation response: the project node, the
`data.migrateProject.errors` array (entries may be `null` — the source
filters them with `.filter((e) => e)`), the `changes` list, and the
messages of the top-level `errors` array. -/
structure MigrateResult where
  node : Option MigrateProjectNode
  errors : List (Option IProjectChangeError)
  changes : List ChangeRecord
  topErrors : List String
deriving Repr, DecidableEq

/-- `String.prototype.toLowerCase` (ASCII case folding suffices for the
change-type tags). -/
def jsToLowerCase (s : String) : String :=
  String.mk (s.data.map Char.toLower)

/-- One step of the change-count reduce:
`changeCounts[change.type.toLowerCase()] += 1`.  A tag outside
{add, update, remove} leaves all three declared buckets unchanged (in
JavaScript it would create an unrelated key on the accumulator). -/
def applyChangeCount (counts : IChangeCounts) (c : ChangeRecord) : IChangeCounts :=
  let t := jsToLowerCase c.type
  if t = "add" then { counts with add := counts.add + 1 }
  else if t = "update" then { counts with update := counts.update + 1 }
  else if t = "remove" then { counts with remove := counts.remove + 1 }
  else counts

/-- The change summary of `DeployCommand.run`: reduce over the reported
changes starting from `{update: 0, add: 0, remove: 0}`. -/
def changeCounts (changes : List ChangeRecord) : IChangeCounts :=
  changes.foldl applyChangeCount ⟨0, 0, 0⟩

/-- The counts line of the deployment report, exactly as interpolated in
the source: `` `${changes.add} addition${changes.add === 1 ? 's' : ''}, ...` ``. -/
def changesSummaryLine (c : IChangeCounts) : String :=
  toString c.add ++ " addition" ++ (if c.add = 1 then "s" else "") ++ ", " ++
  toString c.update ++ " update" ++ (if c.update = 1 then "s" else "") ++ ", " ++
  toString c.remove ++ " removal" ++ (if c.remove = 1 then "s" else "")

/-- `!project || !project.version || !project.version.bundle` negated:
whether the migration response carries a project node with a deployed
version whose bundle reference is a non-empty string. -/
def hasDeployedBundle (node : Option MigrateProjectNode) : Bool :=
  match node with
  | none => false
  | some p =>
    match p.version with
    | none => false
    | some v =>
      match v.bundle with
      | none => false
      | some b => !b.isEmpty

/-- Terminal outcome of the migration tail of `DeployCommand.run`. -/
inductive DeployOutcome where
  | migrationErrors (printed : List IProjectChangeError)
  | notDeployed (surfaced : List String)
  | refreshFailed
  | success (counts : IChangeCounts) (summary : String)
deriving Repr, DecidableEq

/-- The tail of `DeployCommand.run` after the `migrateProject` call:
filter the truthy server errors and abort printing them if any remain;
verify the node has a deployed bundle, else abort with the "not deployed"
message surfacing the top-level error messages; then refresh the local
files (`loadProjectVersion`, success modelled by `refreshOk`) and report
the pluralized change summary. -/
def DeployCommand.runAfterMigrate (result : MigrateResult) (refreshOk : Bool) :
    DeployOutcome :=
  let serverErrors := result.errors.filterMap id
  if !serverErrors.isEmpty then .migrationErrors serverErrors
  else if !hasDeployedBundle result.node then .notDeployed result.topErrors
  else if !refreshOk then .refreshFailed
  else .success (changeCounts result.changes) (changesSummaryLine (changeCounts result.changes))

/-- Whether the migration tail reaches the `loadProjectVersion` call:
both guards before it must pass. -/
def refreshInvoked (result : MigrateResult) : Bool :=
  (result.errors.filterMap id).isEmpty && hasDeployedBundle result.node

/-! ## Helper lemmas -/

lemma mem_jsInsert {α} (cmp : α → α → JsNum) (x a : α) (l : List α)
    (h : a ∈ jsInsert cmp x l) : a = x ∨ a ∈ l := by
  induction l with
  | nil => simpa [jsInsert] using h
  | cons y ys ih =>
    rw [jsInsert] at h
    by_cases hc : (cmp x y).isNeg
    · rw [if_pos hc] at h
      simpa using h
    · rw [if_neg hc] at h
      rcases List.mem_cons.mp h with h1 | h2
      · exact Or.inr (by simp [h1])
      · rcases ih h2 with h3 | h4
        · exact Or.inl h3
        · exact Or.inr (List.mem_cons_of_mem _ h4)

lemma mem_jsSort_foldl {α} (cmp : α → α → JsNum) (l : List α) (a : α) :
    ∀ acc, a ∈ l.foldl (fun s x => jsInsert cmp x s) acc → a ∈ acc ∨ a ∈ l := by
  induction l with
  | nil => intro acc h; exact Or.inl h
  | cons x xs ih =>
    intro acc h
    rcases ih (jsInsert cmp x acc) h with h1 | h2
    · rcases mem_jsInsert cmp x a acc h1 with h3 | h4
      · exact Or.inr (by simp [h3])
      · exact Or.inl h4
    · exact Or.inr (List.mem_cons_of_mem _ h2)

lemma mem_jsSort {α} (cmp : α → α → JsNum) (l : List α) (a : α)
    (h : a ∈ jsSort cmp l) : a ∈ l := by
  rcases mem_jsSort_foldl cmp l a [] h with h1 | h2
  · simp at h1
  · exact h2

lemma applyChangeCount_fields (acc : IChangeCounts) (c : ChangeRecord) :
    (applyChangeCount acc c).add
        = acc.add + (if jsToLowerCase c.type = "add" then 1 else 0) ∧
    (applyChangeCount acc c).update
        = acc.update + (if jsToLowerCase c.type = "update" then 1 else 0) ∧
    (applyChangeCount acc c).remove
        = acc.remove + (if jsToLowerCase c.type = "remove" then 1 else 0) := by
  unfold applyChangeCount
  split_ifs with h1 h2 h3 <;> simp_all

lemma changeCounts_foldl (l : List ChangeRecord) :
    ∀ acc : IChangeCounts,
      (l.foldl applyChangeCount acc).add
          = acc.add + l.countP (fun c => jsToLowerCase c.type == "add") ∧
      (l.foldl applyChangeCount acc).update
          = acc.update + l.countP (fun c => jsToLowerCase c.type == "update") ∧
      (l.foldl applyChangeCount acc).remove
          = acc.remove + l.countP (fun c => jsToLowerCase c.type == "remove") := by
  induction l with
  | nil => intro acc; simp
  | cons c cs ih =>
    intro acc
    obtain ⟨ha, hu, hr⟩ := ih (applyChangeCount acc c)
    obtain ⟨fa, fu, fr⟩ := applyChangeCount_fields acc c
    refine ⟨?_, ?_, ?_⟩ <;>
      simp only [List.foldl_cons, List.countP_cons, ha, hu, hr, fa, fu, fr,
        beq_iff_eq] <;>
      split_ifs <;> omega

lemma getOrCreateEnvironment_miss (opts : DeployOptions)
    (store : String → Option IEnvironmentConfig) (lc : ListClusterResult)
    (probe : String → Option Nat) (cr : CreateProjectResult)
    (hmiss : store (jsOrStr opts.env "default") = none) :
    DeployCommand.getOrCreateEnvironment opts store lc probe cr =
      match DeployCommand.getCluster lc probe with
      | none => ⟨.error "Error creating project", [], 1 + DeployCommand.pingCount lc⟩
      | some _ =>
        match cr.node with
        | none =>
          ⟨.error "Error creating project", [], 1 + DeployCommand.pingCount lc + 1⟩
        | some p =>
          ⟨.ok (envConfigOfProject p),
            [(jsOrStr opts.env "default", envConfigOfProject p)],
            1 + DeployCommand.pingCount lc + 1⟩ := by
  unfold DeployCommand.getOrCreateEnvironment
  simp only [hmiss]

/-! ## Fixtures used in counterexamples and witnesses -/

def clusterOne : ICluster := ⟨"c1", "gcp.us-east1", "US East 1", "u1"⟩

def clusterTwo : ICluster := ⟨"c2", "gcp.eu-west1", "EU West 1", "u2"⟩

def clusterThree : ICluster := ⟨"c3", "gcp.asia-east1", "Asia East 1", "u3"⟩

/-- Probe oracle: latency 5 for `u1`, latency 3 for `u2`, every other
ping URL unreachable. -/
def probeMixed : String → Option Nat := fun u =>
  if u = "u1" then some 5 else if u = "u2" then some 3 else none

def lcMixed : ListClusterResult := ⟨[⟨clusterOne⟩, ⟨clusterTwo⟩, ⟨clusterThree⟩], []⟩

def probeAllFail : String → Option Nat := fun _ => none

def lcSingle : ListClusterResult := ⟨[⟨clusterThree⟩], []⟩

def probeSeven : String → Option Nat := fun _ => some 7

def chooseNone : List Timing → Option ICluster := fun _ => none

/-! ## Claims -/

/-- C1: the claim says the cluster ranking places the reachable candidate
with the smallest latency first.  `DeployCommand.getCluster`'s comparator
`(a, b) => a.latency < b.latency ? 1 : 0` never returns a negative value,
so the stable sort leaves the probed order unchanged: with latencies
[5, 3] the latency-5 cluster stays first and is returned, contradicting
the claim and the method's own doc comment ("Returns the closest data
center").  Unreachable candidates are filtered out before the sort rather
than being ranked last. -/
theorem deploy_ranking_prefers_higher_latency :
    probeMixed clusterOne.pingUrl = some 5 ∧
    probeMixed clusterTwo.pingUrl = some 3 ∧
    probeMixed clusterThree.pingUrl = none ∧
    DeployCommand.ranking lcMixed probeMixed
      = [⟨some 5, clusterOne⟩, ⟨some 3, clusterTwo⟩] ∧
    DeployCommand.getCluster lcMixed probeMixed = some clusterOne := by
  decide

/-- C9: the pluralization ternary in the deployment report is inverted —
`count === 1` appends the `s`.  The summary {add: 1, update: 0,
remove: 2} renders as "1 additions, 0 update, 2 removal" instead of the
grammatical "1 addition, 0 updates, 2 removals" the claim states. -/
theorem pluralization_inverted :
    changesSummaryLine ⟨0, 1, 2⟩ = "1 additions, 0 update, 2 removal" ∧
    changesSummaryLine ⟨0, 1, 2⟩ ≠ "1 addition, 0 updates, 2 removals" := by
  decide

/-- C8: the change summary counts each record into the bucket named by
its lowercased type tag, and the concrete input
[ADD, update, ADD, REMOVE] yields {add: 2, update: 1, remove: 1}
(the `IChangeCounts` literal below is in field order update, add,
remove). -/
theorem change_summary_counts_case_insensitive (changes : List ChangeRecord) :
    (changeCounts changes).add
        = changes.countP (fun c => jsToLowerCase c.type == "add") ∧
    (changeCounts changes).update
        = changes.countP (fun c => jsToLowerCase c.type == "update") ∧
    (changeCounts changes).remove
        = changes.countP (fun c => jsToLowerCase c.type == "remove") ∧
    changeCounts [⟨"ADD", "a"⟩, ⟨"update", "b"⟩, ⟨"ADD", "c"⟩, ⟨"REMOVE", "d"⟩]
      = ⟨1, 2, 1⟩ := by
  obtain ⟨ha, hu, hr⟩ := changeCounts_foldl changes ⟨0, 0, 0⟩
  refine ⟨?_, ?_, ?_, by decide⟩
  · simpa [changeCounts] using ha
  · simpa [changeCounts] using hu
  · simpa [changeCounts] using hr

/-- A migration response whose `errors` array holds a single `null`
entry while the project node carries a valid bundle. -/
def nullErrorMigrate : MigrateResult :=
  ⟨some ⟨some ⟨some "http://bundle.zip", "v1"⟩⟩, [none], [], []⟩

/-- C5 counterexample: the claim quantifies over every response with a
non-empty `errors` array, but the source filters the array with
`.filter((e) => e)`; a response whose `errors` is the non-empty `[null]`
is not aborted — the refresh is reached and the run succeeds. -/
theorem null_error_entry_does_not_abort :
    nullErrorMigrate.errors ≠ [] ∧
    refreshInvoked nullErrorMigrate = true ∧
    DeployCommand.runAfterMigrate nullErrorMigrate true
      = .success ⟨0, 0, 0⟩ (changesSummaryLine ⟨0, 0, 0⟩) := by
  decide

/-- C5 amended: for every migration response whose `errors` array holds
at least one non-null entry, the orchestrator aborts printing exactly the
non-null entries and the local file refresh is never invoked. -/
theorem migration_errors_abort_deploy (result : MigrateResult) (refreshOk : Bool)
    (h : result.errors.filterMap id ≠ []) :
    DeployCommand.runAfterMigrate result refreshOk
      = .migrationErrors (result.errors.filterMap id) ∧
    refreshInvoked result = false := by
  rcases he : result.errors.filterMap id with _ | ⟨e, es⟩
  · exact absurd he h
  · constructor <;> simp [DeployCommand.runAfterMigrate, refreshInvoked, he]

/-- A migration response carrying one real error next to a valid
node. -/
def errorMigrate : MigrateResult :=
  ⟨some ⟨some ⟨some "http://bundle.zip", "v1"⟩⟩, [some ⟨"boom"⟩], [], []⟩

theorem migration_errors_abort_deploy_witness :
    DeployCommand.runAfterMigrate errorMigrate true = .migrationErrors [⟨"boom"⟩] ∧
    refreshInvoked errorMigrate = false := by
  obtain ⟨h1, h2⟩ := migration_errors_abort_deploy errorMigrate true (by decide)
  exact ⟨by rw [h1]; decide, h2⟩

/-- A migration response with a real error and no project node. -/
def bothBadMigrate : MigrateResult :=
  ⟨none, [some ⟨"boom"⟩], [], ["top-level failure"]⟩

/-- C6 counterexample: a response whose node is missing but whose
`errors` array also carries a real error aborts through the
error-printing branch, not with the "not deployed" message the claim
requires for every bundle-less response. -/
theorem missing_node_with_errors_prints_errors :
    bothBadMigrate.node = none ∧
    DeployCommand.runAfterMigrate bothBadMigrate true = .migrationErrors [⟨"boom"⟩] ∧
    DeployCommand.runAfterMigrate bothBadMigrate true
      ≠ .notDeployed bothBadMigrate.topErrors := by
  decide

/-- C6 amended: a migration response whose project node is missing or
lacks a non-empty `version.bundle` never reaches the local file refresh;
when additionally its (non-null) migration error list is empty, the
orchestrator aborts with the "not deployed" outcome surfacing the
response's top-level error messages. -/
theorem missing_bundle_blocks_refresh (result : MigrateResult) (refreshOk : Bool)
    (h : hasDeployedBundle result.node = false) :
    refreshInvoked result = false ∧
    (result.errors.filterMap id = [] →
      DeployCommand.runAfterMigrate result refreshOk
        = .notDeployed result.topErrors) := by
  constructor
  · simp [refreshInvoked, h]
  · intro he
    simp [DeployCommand.runAfterMigrate, he, h]

/-- A migration response whose version has a `null` bundle and whose
migration error list is empty. -/
def notDeployedMigrate : MigrateResult :=
  ⟨some ⟨some ⟨none, "v2"⟩⟩, [], [⟨"add", "x"⟩], ["no capacity"]⟩

theorem missing_bundle_blocks_refresh_witness :
    refreshInvoked notDeployedMigrate = false ∧
    DeployCommand.runAfterMigrate notDeployedMigrate true
      = .notDeployed ["no capacity"] := by
  obtain ⟨h1, h2⟩ := missing_bundle_blocks_refresh notDeployedMigrate true (by decide)
  exact ⟨h1, by rw [h2 (by decide)]; decide⟩

/-- C2 counterexample: `DeployCommand.getCluster` has no size-one
shortcut — a single candidate is still probed (one ping fetch), and when
that probe fails the candidate is not selected at all. -/
theorem deploy_probes_single_candidate :
    lcSingle.edges.length = 1 ∧
    DeployCommand.pingCount lcSingle = 1 ∧
    DeployCommand.getCluster lcSingle probeAllFail = none := by
  decide

/-- C2 amended: for a size-one candidate list, `InitCommand.getCluster`
selects the candidate immediately with zero probe calls, while
`DeployCommand.getCluster` issues one probe for it and selects it only
when that probe succeeds (returning `null` otherwise). -/
theorem single_candidate_selection (c : ICluster) (probe : String → Option Nat)
    (choose : List Timing → Option ICluster) :
    InitCommand.getCluster [⟨c⟩] probe choose = some c ∧
    InitCommand.pingCount [⟨c⟩] = 0 ∧
    DeployCommand.pingCount ⟨[⟨c⟩], []⟩ = 1 ∧
    (∀ t, probe c.pingUrl = some t →
      DeployCommand.getCluster ⟨[⟨c⟩], []⟩ probe = some c) ∧
    (probe c.pingUrl = none →
      DeployCommand.getCluster ⟨[⟨c⟩], []⟩ probe = none) := by
  refine ⟨?_, rfl, rfl, ?_, ?_⟩
  · simp [InitCommand.getCluster]
  · intro t ht
    simp [DeployCommand.getCluster, DeployCommand.ranking, dcTimers, ht,
      jsSort, jsInsert, List.filter]
  · intro hn
    simp [DeployCommand.getCluster, DeployCommand.ranking, dcTimers, hn,
      jsSort, List.filter]

theorem single_candidate_selection_witness :
    DeployCommand.getCluster ⟨[⟨clusterThree⟩], []⟩ probeSeven = some clusterThree ∧
    InitCommand.getCluster [⟨clusterThree⟩] probeSeven chooseNone = some clusterThree := by
  obtain ⟨h1, _, _, h4, _⟩ :=
    single_candidate_selection clusterThree probeSeven chooseNone
  exact ⟨h4 7 rfl, h1⟩

/-- Deploy options with forced mode and both overrides supplied. -/
def forcedOpts : DeployOptions :=
  ⟨true, some "staging", some "My Project", some "myproject", none⟩

/-- C3 counterexample: in forced mode with no `default` environment
record, the suggestions — and with them the caller-supplied overrides,
which are only consulted inside `if (defaultEnv)` — stay `undefined`:
the new project's name and alias are not the supplied overrides. -/
theorem forced_mode_drops_overrides_without_default :
    forcedOpts.force = true ∧
    forcedOpts.name = some "My Project" ∧
    forcedOpts.«alias» = some "myproject" ∧
    newProjectName forcedOpts none "staging" "typed" = none ∧
    newProjectAlias forcedOpts none "staging" "typed" = none := by
  decide

/-- C3 amended: in forced mode no prompt is issued; when a `default`
environment record exists, the new name and alias are the caller-supplied
(truthy) overrides when given and the derived suggestions
`"<default.name> (<env>)"` / `"<default.alias>-<env>"` otherwise; when no
`default` record exists, both stay undefined regardless of supplied
overrides. -/
theorem forced_mode_name_alias (opts : DeployOptions) (d : IEnvironmentConfig)
    (envName aN aA : String) (hf : opts.force = true) :
    promptCount opts = 0 ∧
    (∀ n, opts.name = some n → n ≠ "" →
      newProjectName opts (some d) envName aN = some n) ∧
    (jsTruthy opts.name = false →
      newProjectName opts (some d) envName aN
        = some (d.name ++ " (" ++ envName ++ ")")) ∧
    (∀ a, opts.«alias» = some a → a ≠ "" →
      newProjectAlias opts (some d) envName aA = some a) ∧
    (jsTruthy opts.«alias» = false →
      newProjectAlias opts (some d) envName aA
        = some (d.«alias» ++ "-" ++ envName)) ∧
    newProjectName opts none envName aN = none ∧
    newProjectAlias opts none envName aA = none := by
  refine ⟨?_, ?_, ?_, ?_, ?_, ?_, ?_⟩
  · simp [promptCount, hf]
  · intro n hn hne
    simp [newProjectName, hf, suggestedProjectName, jsOrStr, hn, hne]
  · intro ht
    cases hn : opts.name with
    | none => simp [newProjectName, hf, suggestedProjectName, jsOrStr, hn]
    | some s =>
      have hs : s = "" := by
        rw [hn] at ht
        simpa [jsTruthy] using ht
      subst hs
      simp [newProjectName, hf, suggestedProjectName, jsOrStr, hn]
  · intro a ha hae
    simp [newProjectAlias, hf, suggestedProjectAlias, jsOrStr, ha, hae]
  · intro ht
    cases ha : opts.«alias» with
    | none => simp [newProjectAlias, hf, suggestedProjectAlias, jsOrStr, ha]
    | some s =>
      have hs : s = "" := by
        rw [ha] at ht
        simpa [jsTruthy] using ht
      subst hs
      simp [newProjectAlias, hf, suggestedProjectAlias, jsOrStr, ha]
  · simp [newProjectName, hf, suggestedProjectName]
  · simp [newProjectAlias, hf, suggestedProjectAlias]

/-- Forced deploy options with no overrides. -/
def forcedOptsPlain : DeployOptions := ⟨true, some "staging", none, none, none⟩

/-- An existing `default` environment record. -/
def defaultEnvRecord : IEnvironmentConfig :=
  ⟨"http://ep", "v1", "myapp", "http://console", "http://play", "My App", "P1"⟩

theorem forced_mode_name_alias_witness :
    promptCount forcedOptsPlain = 0 ∧
    newProjectName forcedOptsPlain (some defaultEnvRecord) "staging" "typed"
      = some "My App (staging)" ∧
    newProjectAlias forcedOptsPlain (some defaultEnvRecord) "staging" "typed"
      = some "myapp-staging" := by
  obtain ⟨h1, _, h3, _, h5, _, _⟩ :=
    forced_mode_name_alias forcedOptsPlain defaultEnvRecord "staging" "typed" "typed" rfl
  exact ⟨h1, by rw [h3 rfl]; decide, by rw [h5 rfl]; decide⟩

/-- C4: on a store miss, a failed cluster resolution or a creation
response without a `createProject` node makes `getOrCreateEnvironment`
throw with no store write performed, and every store write it ever
performs records exactly the accepted creation response, keyed by the
environment name, alongside a successful return. -/
theorem store_write_only_after_success (opts : DeployOptions)
    (store : String → Option IEnvironmentConfig) (lc : ListClusterResult)
    (probe : String → Option Nat) (cr : CreateProjectResult)
    (hmiss : store (jsOrStr opts.env "default") = none) :
    (DeployCommand.getCluster lc probe = none ∨ cr.node = none →
      (DeployCommand.getOrCreateEnvironment opts store lc probe cr).result
          = .error "Error creating project" ∧
      (DeployCommand.getOrCreateEnvironment opts store lc probe cr).writes = []) ∧
    (∀ nm cfg,
      (nm, cfg) ∈ (DeployCommand.getOrCreateEnvironment opts store lc probe cr).writes →
      ∃ p, cr.node = some p ∧ cfg = envConfigOfProject p ∧
        nm = jsOrStr opts.env "default" ∧
        (DeployCommand.getOrCreateEnvironment opts store lc probe cr).result
          = .ok cfg) := by
  rw [getOrCreateEnvironment_miss opts store lc probe cr hmiss]
  rcases hc : DeployCommand.getCluster lc probe with _ | cl
  · exact ⟨fun _ => ⟨rfl, rfl⟩, by intro nm cfg h; simp at h⟩
  · rcases hn : cr.node with _ | p
    · exact ⟨fun _ => ⟨rfl, rfl⟩, by intro nm cfg h; simp at h⟩
    · refine ⟨fun h => ?_, ?_⟩
      · rcases h with h | h
        · exact absurd h (by simp [hc])
        · exact absurd h (by simp [hn])
      · intro nm cfg h
        simp only [List.mem_singleton, Prod.mk.injEq] at h
        exact ⟨p, rfl, h.2, h.1, by rw [h.2]⟩

/-- A store holding no environment record. -/
def emptyStore : String → Option IEnvironmentConfig := fun _ => none

/-- A `listCluster` response carrying an error envelope. -/
def lcError : ListClusterResult := ⟨[], ["Error"]⟩

/-- A `createProject` response without a created node. -/
def noNodeCreate : CreateProjectResult := ⟨none, ["Error"]⟩

theorem store_write_only_after_success_witness :
    (DeployCommand.getOrCreateEnvironment forcedOptsPlain emptyStore lcError
        probeAllFail noNodeCreate).writes = [] := by
  obtain ⟨h1, _⟩ :=
    store_write_only_after_success forcedOptsPlain emptyStore lcError
      probeAllFail noNodeCreate rfl
  exact (h1 (Or.inl (by decide))).2

/-- C7: an environment name already present in the store resolves to the
stored record unchanged, performs no store write and issues zero network
calls. -/
theorem existing_env_returned_unchanged (opts : DeployOptions)
    (store : String → Option IEnvironmentConfig) (lc : ListClusterResult)
    (probe : String → Option Nat) (cr : CreateProjectResult)
    (env : IEnvironmentConfig)
    (hhit : store (jsOrStr opts.env "default") = some env) :
    DeployCommand.getOrCreateEnvironment opts store lc probe cr
      = ⟨.ok env, [], 0⟩ := by
  unfold DeployCommand.getOrCreateEnvironment
  simp only [hhit]

/-- The record stored for `"default"` in the C7 witness store. -/
def storedEnv : IEnvironmentConfig :=
  ⟨"http://endpoint", "v7", "app", "http://console", "http://play", "App", "P7"⟩

/-- A store with exactly one record, for `"default"`. -/
def defaultOnlyStore : String → Option IEnvironmentConfig := fun n =>
  if n = "default" then some storedEnv else none

/-- Non-forced deploy options with nothing supplied. -/
def plainOpts : DeployOptions := ⟨false, none, none, none, none⟩

theorem existing_env_returned_unchanged_witness :
    DeployCommand.getOrCreateEnvironment plainOpts defaultOnlyStore lcError
        probeAllFail noNodeCreate
      = ⟨.ok storedEnv, [], 0⟩ :=
  existing_env_returned_unchanged plainOpts defaultOnlyStore lcError
    probeAllFail noNodeCreate storedEnv (by decide)

/-- C10: whenever `DeployCommand.getCluster` returns a cluster, that
cluster's probe succeeded; when every probe fails it returns `null`; and
on a store miss the caller `getOrCreateEnvironment` turns that `null`
into the no-capacity failure with no store write. -/
theorem returned_cluster_probe_succeeded (lc : ListClusterResult)
    (probe : String → Option Nat) :
    (∀ c, DeployCommand.getCluster lc probe = some c → probe c.pingUrl ≠ none) ∧
    ((∀ e ∈ lc.edges, probe e.node.pingUrl = none) →
      DeployCommand.getCluster lc probe = none) ∧
    (∀ (opts : DeployOptions) (store : String → Option IEnvironmentConfig)
        (cr : CreateProjectResult),
      store (jsOrStr opts.env "default") = none →
      DeployCommand.getCluster lc probe = none →
      (DeployCommand.getOrCreateEnvironment opts store lc probe cr).result
          = .error "Error creating project" ∧
      (DeployCommand.getOrCreateEnvironment opts store lc probe cr).writes = []) := by
  refine ⟨?_, ?_, ?_⟩
  · intro c hc
    unfold DeployCommand.getCluster at hc
    by_cases he : lc.errors.isEmpty
    · rw [if_pos he] at hc
      obtain ⟨t, ht, htc⟩ := Option.map_eq_some'.mp hc
      have htm : t ∈ DeployCommand.ranking lc probe := List.mem_of_mem_head? ht
      have hmem := mem_jsSort _ _ _ htm
      rw [List.mem_filter] at hmem
      obtain ⟨hmem, hsome⟩ := hmem
      unfold dcTimers at hmem
      rw [List.mem_map] at hmem
      obtain ⟨e, _, hte⟩ := hmem
      cases hte
      cases htc
      simpa [Option.isSome_iff_ne_none] using hsome
    · rw [if_neg he] at hc
      cases hc
  · intro hall
    unfold DeployCommand.getCluster
    by_cases he : lc.errors.isEmpty
    · rw [if_pos he]
      have hf : (dcTimers probe lc.edges).filter (fun d => d.latency.isSome) = [] := by
        rw [List.filter_eq_nil_iff]
        intro t ht
        unfold dcTimers at ht
        rw [List.mem_map] at ht
        obtain ⟨e, he2, hte⟩ := ht
        cases hte
        simp [hall e he2]
      unfold DeployCommand.ranking
      rw [hf]
      rfl
    · rw [if_neg he]
  · intro opts store cr hmiss hnone
    rw [getOrCreateEnvironment_miss opts store lc probe cr hmiss, hnone]
    exact ⟨rfl, rfl⟩

theorem returned_cluster_probe_succeeded_witness :
    DeployCommand.getCluster lcMixed probeAllFail = none :=
  (returned_cluster_probe_succeeded lcMixed probeAllFail).2.1 (by decide)

end Slicknode
